import Mathlib

/-!
Verification development for the bTCP reference implementation
(`btcp_socket.py`, `client_socket.py`, `server_socket.py`).

Bytes on the wire are modelled as `List Nat` with every element below 256.
Python runtime exceptions escaping a handler are modelled by `Except PyErr`.
All definitions are translated directly from the Python sources; the only
exceptions are the configuration constants from `btcp/constants.py` (not part
of the sources) which are modelled from the spec, and one definition that
follows the specification's wording of the checksum for comparison purposes.
-/

set_option maxRecDepth 4000

namespace BTCP

/-- Python runtime errors that the handlers can raise. -/
inductive PyErr where
  | typeError
  | indexError
  | structError
deriving DecidableEq, Repr

/-- The bTCP state enum from `btcp_socket.py` (`BTCPStates`). -/
inductive BTCPStates where
  | CLOSED
  | ACCEPTING
  | SYN_SENT
  | SYN_RCVD
  | ESTABLISHED
  | FIN_SENT
  | CLOSING
deriving DecidableEq, Repr

/-- Modelled from the spec: `btcp/constants.py` is not among the sources;
spec section 6 fixes the header at 10 bytes (`HEADER_SIZE`). -/
def HEADER_SIZE : Nat := 10

/-- Modelled from the spec: `btcp/constants.py` is not among the sources;
spec sections 2 and 6 fix the payload at 1008 bytes (`PAYLOAD_SIZE`). -/
def PAYLOAD_SIZE : Nat := 1008

/-- Modelled from the spec: `btcp/constants.py` is not among the sources;
`WINDOW` is the configured default advertised window. The spec does not fix
its numeric value; no theorem below depends on it, it only appears in the
initial endpoint states. -/
def WINDOW : Nat := 100

/-- One step of the running checksum loop of `BTCPSocket.in_cksum`
(btcp_socket.py lines 50-54): add one 16-bit word, and if the running value
exceeds `2 ** 16` subtract `2 ** 16 - 1` ("double minus is adding 1"). -/
def cksumStep (c w : Nat) : Nat :=
  if c + w > 65536 then c + w - 65535 else c + w

/-- The running checksum over a list of 16-bit words, as accumulated by the
loop of `BTCPSocket.in_cksum`. -/
def cksumFold (ws : List Nat) : Nat :=
  ws.foldl cksumStep 0

/-- `struct.iter_unpack("!H", segment)`: group a byte string into consecutive
16-bit big-endian words; `none` models the `struct.error` raised when the
input length is not a multiple of two. -/
def toWords : List Nat → Option (List Nat)
  | [] => some []
  | [_] => none
  | b0 :: b1 :: rest => (toWords rest).map (fun ws => (b0 * 256 + b1) :: ws)

/-- `BTCPSocket.in_cksum` (btcp_socket.py lines 35-55). On the empty input the
Python code evaluates `int(0x0000, 16)`, i.e. `int(0, 16)`, which raises
`TypeError` (`int()` with an explicit base requires a string); on an
odd-length input `struct.iter_unpack` raises `struct.error`. Otherwise it
returns `2 ** 16 - checksum` for the folded running sum `checksum`. The
result fits in `Nat` because the folded sum never exceeds `2 ** 16` when all
bytes are below 256 (proved below), so the subtraction never truncates. -/
def in_cksum (bytes : List Nat) : Except PyErr Nat :=
  match bytes with
  | [] => .error .typeError
  | _ :: _ =>
    match toWords bytes with
    | none => .error .structError
    | some ws => .ok (65536 - cksumFold ws)

/-- `BTCPSocket.build_segment_header` (btcp_socket.py lines 58-84):
`struct.pack("!HHBBHH", seqnum, acknum, flag_byte, window, length, checksum)`
with `flag_byte = syn_set << 2 | ack_set << 1 | fin_set` (the shifted bits are
disjoint, so the bitwise or is the sum below). Arguments are assumed in range
(`struct.pack` raises otherwise); every theorem below uses it within range. -/
def build_segment_header (seqnum acknum : Nat) (syn_set ack_set fin_set : Bool)
    (window length checksum : Nat) : List Nat :=
  let flag_byte := (if syn_set then 4 else 0) + (if ack_set then 2 else 0) +
    (if fin_set then 1 else 0)
  [seqnum / 256, seqnum % 256, acknum / 256, acknum % 256, flag_byte, window,
   length / 256, length % 256, checksum / 256, checksum % 256]

/-- `BTCPSocket.unpack_segment_header` (btcp_socket.py lines 87-102):
`struct.unpack("!HHBBHH", header)` followed by the flag extraction
`syn_set = flags > 3; flags %= 4; ack_set = flags > 1; flags %= 2;
fin_set = flags > 0`. `struct.unpack` raises `struct.error` unless the input
is exactly 10 bytes. -/
def unpack_segment_header (header : List Nat) :
    Except PyErr (Nat × Nat × Bool × Bool × Bool × Nat × Nat × Nat) :=
  match header with
  | [b0, b1, b2, b3, fl, w, l0, l1, c0, c1] =>
    .ok (b0 * 256 + b1, b2 * 256 + b3, decide (fl > 3), decide (fl % 4 > 1),
      decide (fl % 4 % 2 > 0), w, l0 * 256 + l1, c0 * 256 + c1)
  | _ => .error .structError

/-- Helper: the checksum of a header encoded with checksum field 0. A header
is 10 bytes, so `in_cksum` always succeeds on it; the error arm is dead. -/
def header_cksum (seqnum acknum : Nat) (syn_set ack_set fin_set : Bool)
    (window length : Nat) : Nat :=
  match in_cksum (build_segment_header seqnum acknum syn_set ack_set fin_set
      window length 0) with
  | .ok c => c
  | .error _ => 0

theorem in_cksum_build (sq ak : Nat) (sy ac fi : Bool) (w dl : Nat) :
    in_cksum (build_segment_header sq ak sy ac fi w dl 0) =
      .ok (header_cksum sq ak sy ac fi w dl) := rfl

theorem build_take_append (sq ak : Nat) (sy ac fi : Bool) (w dl ck : Nat)
    (pay : List Nat) :
    (build_segment_header sq ak sy ac fi w dl ck ++ pay).take HEADER_SIZE =
      build_segment_header sq ak sy ac fi w dl ck := rfl

theorem build_drop_append (sq ak : Nat) (sy ac fi : Bool) (w dl ck : Nat)
    (pay : List Nat) :
    (build_segment_header sq ak sy ac fi w dl ck ++ pay).drop HEADER_SIZE =
      pay := rfl

/-- Unpacking inverts building. The 16-bit fields are reconstructed as
`(x / 256) * 256 + x % 256`, which equals `x` unconditionally. -/
theorem unpack_build (sq ak : Nat) (sy ac fi : Bool) (w dl ck : Nat) :
    unpack_segment_header (build_segment_header sq ak sy ac fi w dl ck) =
      .ok (sq, ak, sy, ac, fi, w, dl, ck) := by
  cases sy <;> cases ac <;> cases fi <;>
    simp [build_segment_header, unpack_segment_header] <;> omega

/-- The words of a built header. -/
theorem toWords_build (sq ak : Nat) (sy ac fi : Bool) (w dl ck : Nat) :
    toWords (build_segment_header sq ak sy ac fi w dl ck) =
      some [sq, ak,
        ((if sy then 4 else 0) + (if ac then 2 else 0) +
          (if fi then 1 else 0)) * 256 + w, dl, ck] := by
  cases sy <;> cases ac <;> cases fi <;>
    simp [build_segment_header, toWords] <;> omega

theorem cksumStep_le {c w : Nat} (hc : c ≤ 65536) (hw : w ≤ 65535) :
    cksumStep c w ≤ 65536 := by
  unfold cksumStep; split <;> omega

theorem cksumFold_go_le : ∀ (ws : List Nat) (c : Nat), c ≤ 65536 →
    (∀ w ∈ ws, w ≤ 65535) → List.foldl cksumStep c ws ≤ 65536 := by
  intro ws
  induction ws with
  | nil => intro c hc _; simpa using hc
  | cons w ws ih =>
    intro c hc hws
    simp only [List.foldl_cons]
    exact ih _ (cksumStep_le hc (hws w (by simp))) (fun x hx => hws x (by simp [hx]))

theorem cksumStep_eq_zero {c w : Nat} : cksumStep c w = 0 ↔ c = 0 ∧ w = 0 := by
  unfold cksumStep; split <;> omega

theorem cksumFold_go_eq_zero : ∀ (ws : List Nat) (c : Nat),
    List.foldl cksumStep c ws = 0 ↔ (c = 0 ∧ ∀ w ∈ ws, w = 0) := by
  intro ws
  induction ws with
  | nil => intro c; simp
  | cons w ws ih =>
    intro c
    simp only [List.foldl_cons, ih, cksumStep_eq_zero, List.mem_cons]
    constructor
    · rintro ⟨⟨hc, hw⟩, hws⟩
      exact ⟨hc, fun x hx => hx.elim (fun h => h ▸ hw) (hws x)⟩
    · rintro ⟨hc, hws⟩
      exact ⟨⟨hc, hws w (Or.inl rfl)⟩, fun x hx => hws x (Or.inr hx)⟩

theorem cksumFold_le (ws : List Nat) (hws : ∀ w ∈ ws, w ≤ 65535) :
    cksumFold ws ≤ 65536 :=
  cksumFold_go_le ws 0 (by omega) hws

theorem cksumFold_eq_zero (ws : List Nat) :
    cksumFold ws = 0 ↔ ∀ w ∈ ws, w = 0 := by
  simpa using cksumFold_go_eq_zero ws 0

theorem toWords_bounds : ∀ (bytes ws : List Nat), toWords bytes = some ws →
    (∀ b ∈ bytes, b < 256) → ∀ w ∈ ws, w ≤ 65535 := by
  intro bytes
  induction bytes using toWords.induct with
  | case1 =>
    intro ws h _
    obtain rfl : ws = [] := by simpa [toWords] using h.symm
    simp
  | case2 b => intro ws h; simp [toWords] at h
  | case3 b0 b1 rest ih =>
    intro ws h hb
    simp only [toWords, Option.map_eq_some'] at h
    obtain ⟨ws0, hws0, rfl⟩ := h
    intro w hw
    rcases List.mem_cons.mp hw with h1 | hw
    · have hb0 : b0 < 256 := hb b0 (by simp)
      have hb1 : b1 < 256 := hb b1 (by simp)
      omega
    · exact ih ws0 hws0 (fun x hx => hb x (by simp [hx])) w hw

theorem toWords_zero : ∀ (bytes ws : List Nat), toWords bytes = some ws →
    ((∀ w ∈ ws, w = 0) ↔ (∀ b ∈ bytes, b = 0)) := by
  intro bytes
  induction bytes using toWords.induct with
  | case1 =>
    intro ws h
    obtain rfl : ws = [] := by simpa [toWords] using h.symm
    simp
  | case2 b => intro ws h; simp [toWords] at h
  | case3 b0 b1 rest ih =>
    intro ws h
    simp only [toWords, Option.map_eq_some'] at h
    obtain ⟨ws0, hws0, rfl⟩ := h
    have ihz := ih ws0 hws0
    constructor
    · intro hws
      have hw0 : b0 * 256 + b1 = 0 := hws _ (List.mem_cons_self _ _)
      have hrest := ihz.mp (fun w hw => hws w (List.mem_cons_of_mem _ hw))
      intro b hb
      rcases List.mem_cons.mp hb with h1 | hb2
      · omega
      rcases List.mem_cons.mp hb2 with h2 | hb3
      · omega
      · exact hrest b hb3
    · intro hbs
      have hb0 := hbs b0 (by simp)
      have hb1 := hbs b1 (by simp)
      have hrest := ihz.mpr (fun b hb => hbs b (by simp [hb]))
      intro w hw
      rcases List.mem_cons.mp hw with h1 | hw2
      · omega
      · exact hrest w hw2

/-- The checksum as the specification's words describe it: sum the 16-bit
big-endian words "with end-around carry (add any overflow past 16 bits back
into the low bits), then return the one's complement (`0xFFFF - sum`)".
Written from the claim's wording, for comparison with `in_cksum`. -/
def spec_cksum (bytes : List Nat) : Option Nat :=
  (toWords bytes).map (fun ws =>
    65535 - ws.foldl (fun c w =>
      if c + w > 65535 then (c + w) % 65536 + (c + w) / 65536 else c + w) 0)

/-- On a non-empty input that groups into words, `in_cksum` returns
`2 ^ 16` minus the folded running sum. -/
theorem in_cksum_eq_some (bytes ws : List Nat) (h0 : bytes ≠ [])
    (hw : toWords bytes = some ws) :
    in_cksum bytes = .ok (65536 - cksumFold ws) := by
  match bytes with
  | [] => exact absurd rfl h0
  | b :: bs => simp [in_cksum, hw]

/-- C3 counterexample: on the two-byte string `00 01` the code returns
`65536 - 1 = 65535`, not the one's complement `0xFFFF - 1 = 65534` claimed
by the spec; and on the all-zero two-byte string it returns `65536`, which
is not a `uint16`. -/
theorem in_cksum_not_ones_complement_cex :
    in_cksum [0, 1] = .ok 65535 ∧ spec_cksum [0, 1] = some 65534 ∧
      in_cksum [0, 0] = .ok 65536 := ⟨rfl, rfl, rfl⟩

/-- C3 (amended): for every non-empty byte string of even length, `in_cksum`
returns `2 ^ 16` minus the running word sum folded with threshold `2 ^ 16`
and decrement `2 ^ 16 - 1` (one more than the one's complement `0xFFFF - sum`
the claim states); the folded sum is at most `2 ^ 16`, so the result lies in
`0 .. 2 ^ 16` — one more than the claimed `uint16` range — and it reaches
`2 ^ 16` (escaping the `uint16` range) exactly on the all-zero string. -/
theorem in_cksum_range (bytes ws : List Nat) (h0 : bytes ≠ [])
    (hw : toWords bytes = some ws) (hb : ∀ b ∈ bytes, b < 256) :
    in_cksum bytes = .ok (65536 - cksumFold ws) ∧ cksumFold ws ≤ 65536 ∧
      ((65536 - cksumFold ws = 65536) ↔ ∀ b ∈ bytes, b = 0) := by
  have hle : cksumFold ws ≤ 65536 :=
    cksumFold_le ws (toWords_bounds bytes ws hw hb)
  refine ⟨in_cksum_eq_some bytes ws h0 hw, hle, ?_⟩
  rw [show (65536 - cksumFold ws = 65536) ↔ cksumFold ws = 0 by omega]
  rw [cksumFold_eq_zero]
  exact toWords_zero bytes ws hw

/-- C3 witness: the amended theorem instantiated on the all-zero two-byte
string, whose single word is `0`. -/
theorem in_cksum_range_witness :
    in_cksum [0, 0] = .ok (65536 - cksumFold [0]) ∧ cksumFold [0] ≤ 65536 ∧
      ((65536 - cksumFold [0] = 65536) ↔ ∀ b ∈ [0, 0], b = 0) :=
  in_cksum_range [0, 0] [0] (by decide) rfl (by decide)

/-- The flag classification of `BTCPServerSocket.lossy_layer_segment_received`
(server_socket.py lines 113-118), in source order
`(SYNACK, SYN, ACK, FIN, NOFLAG)`. -/
def serverFlagClass (syn_set ack_set fin_set : Bool) :
    Bool × Bool × Bool × Bool × Bool :=
  let synackC := syn_set && ack_set
  let synC := syn_set && !synackC
  let ackC := ack_set && !synackC
  let finC := fin_set && !synC && !ackC
  let noflagC := !(synC || ackC || finC || synackC)
  (synackC, synC, ackC, finC, noflagC)

/-- How many of the five derived categories are true. -/
def classCount (syn_set ack_set fin_set : Bool) : Nat :=
  match serverFlagClass syn_set ack_set fin_set with
  | (a, b, c, d, e) =>
    (cond a 1 0) + (cond b 1 0) + (cond c 1 0) + (cond d 1 0) + (cond e 1 0)

/-- C7 counterexample: with all three of SYN, ACK, FIN set, both the SYN+ACK
category and the FIN category are true (`FIN = fin and not SYN and not ACK`
does not exclude `SYNACK`), so two categories hold at once. -/
theorem flag_class_not_exclusive_cex : classCount true true true = 2 ∧
    (serverFlagClass true true true).1 = true ∧
    (serverFlagClass true true true).2.2.2.1 = true := by decide

/-- C7 (amended): the server's derived flag categories are mutually exclusive
(exactly one holds) for every flag combination except
`synFlag ∧ ackFlag ∧ finFlag`, where exactly two (SYN+ACK and FIN) hold. -/
theorem flag_class_count (syn_set ack_set fin_set : Bool) :
    classCount syn_set ack_set fin_set =
      if syn_set && ack_set && fin_set then 2 else 1 := by
  cases syn_set <;> cases ack_set <;> cases fin_set <;> rfl

/-- C9: the header codec round-trips every in-range field assignment, and
unpacking succeeds on any 10-byte header no matter which flag bits are set. -/
theorem header_roundtrip (sq ak : Nat) (sy ac fi : Bool) (w dl ck : Nat)
    (_h1 : sq < 65536) (_h2 : ak < 65536) (_h3 : w < 256) (_h4 : dl < 65536)
    (_h5 : ck < 65536) :
    unpack_segment_header (build_segment_header sq ak sy ac fi w dl ck) =
      .ok (sq, ak, sy, ac, fi, w, dl, ck) ∧
    (∀ f0 f1 f2 f3 f4 f5 f6 f7 f8 f9 : Nat, ∃ r,
      unpack_segment_header [f0, f1, f2, f3, f4, f5, f6, f7, f8, f9] = .ok r) :=
  ⟨unpack_build sq ak sy ac fi w dl ck,
   fun _ _ _ _ _ _ _ _ _ _ => ⟨_, rfl⟩⟩

/-- C9 witness: round trip at a concrete in-range assignment with every flag
set and extremal field values. -/
theorem header_roundtrip_witness :
    unpack_segment_header
        (build_segment_header 65535 0 true true true 255 65535 65535) =
      .ok (65535, 0, true, true, true, 255, 65535, 65535) :=
  (header_roundtrip 65535 0 true true true 255 65535 65535 (by decide)
    (by decide) (by decide) (by decide) (by decide)).1

/-- The mutable attributes of `BTCPClientSocket` (client_socket.py
`__init__`, lines 39-61). `seqnum` is `None` until `connect` assigns it,
hence `Option Nat`. An entry of `segments_in_transit` is
`(timestamp, seqnum, raw segment)` as appended in `lossy_layer_tick`. The
bounded send queue `_sendbuf` is passed to the tick handler separately. -/
structure ClientState where
  state : BTCPStates
  seqnum : Option Nat
  acknum : Nat
  client_window : Nat
  server_window : Nat
  last_rec_ack : Nat
  synack_recv : Bool
  finack_recv : Bool
  segments_in_transit : List (Nat × Nat × List Nat)
deriving DecidableEq, Repr

/-- The client state right after `__init__` (client_socket.py lines 53-61). -/
def initClient : ClientState :=
  ⟨.CLOSED, none, 0, WINDOW, WINDOW, 0, false, false, []⟩

/-- The in-flight trim loop of the client's ESTABLISHED ACK handling
(client_socket.py lines 121-127): start at index 0, read the entry (an
`IndexError` if the list is exhausted, including the empty list), advance
while the new cumulative ack exceeds the entry's seqnum, and keep the list
from the first entry whose seqnum is not below the ack. -/
def trimTransit (target : Nat) :
    List (Nat × Nat × List Nat) → Except PyErr (List (Nat × Nat × List Nat))
  | [] => .error .indexError
  | e :: rest =>
    if target > e.2.1 then trimTransit target rest else .ok (e :: rest)

/-- `BTCPClientSocket.lossy_layer_segment_received` (client_socket.py lines
77-127). Checksum verification recomputes `in_cksum` over the re-built
header only (line 98 does not append the payload). In `SYN_SENT` and
`FIN_SENT` the Python condition short-circuits, so `self.seqnum + 1` is only
evaluated (raising `TypeError` when `None`) after the flag tests pass. -/
def clientSegmentReceived (s : ClientState) (segment : List Nat) :
    Except PyErr ClientState :=
  if s.state = .CLOSED then .ok s
  else
    match unpack_segment_header (segment.take HEADER_SIZE) with
    | .error e => .error e
    | .ok (seqnum, acknum, syn_set, ack_set, fin_set, window, datalen, checksum) =>
      match in_cksum (build_segment_header seqnum acknum syn_set ack_set
          fin_set window datalen 0) with
      | .error e => .error e
      | .ok check =>
        if check ≠ checksum then .ok s
        else if s.state = .SYN_SENT then
          if syn_set && ack_set then
            match s.seqnum with
            | none => .error .typeError
            | some n =>
              if n + 1 = acknum then
                .ok {s with
                  acknum := seqnum,
                  server_window := window,
                  synack_recv := true}
              else .ok s
          else .ok s
        else if s.state = .FIN_SENT then
          if ack_set && fin_set then
            match s.seqnum with
            | none => .error .typeError
            | some n =>
              if n + 1 = acknum then .ok {s with finack_recv := true}
              else .ok s
          else .ok s
        else if s.state = .ESTABLISHED then
          let s1 := {s with server_window := window}
          if s1.last_rec_ack < acknum ∧ ack_set then
            let s2 := {s1 with last_rec_ack := acknum}
            match trimTransit acknum s2.segments_in_transit with
            | .error e => .error e
            | .ok kept => .ok {s2 with segments_in_transit := kept}
          else .ok s1
        else .ok s

/-- The sending while-loop of `BTCPClientSocket.lossy_layer_tick`
(client_socket.py lines 168-192): while
`self.seqnum - self.last_rec_ack < self.server_window` (a `TypeError` when
`seqnum` is still `None`), pop a chunk (break when the queue is empty), pad
it to `PAYLOAD_SIZE`, two-pass build the data segment, append it to
`segments_in_transit`, transmit, and increment `seqnum`. Returns the final
state, the remaining queue, and every segment given to the lossy layer. -/
def clientSendLoop (t : Nat) (s : ClientState) (buf sent : List (List Nat)) :
    Except PyErr (ClientState × List (List Nat) × List (List Nat)) :=
  match s.seqnum with
  | none => .error .typeError
  | some sq =>
    if ((sq : Int) - (s.last_rec_ack : Int)) < (s.server_window : Int) then
      match buf with
      | [] => .ok (s, [], sent)
      | chunk :: rest =>
        let datalen := chunk.length
        let padded :=
          if datalen < PAYLOAD_SIZE then
            chunk ++ List.replicate (PAYLOAD_SIZE - datalen) 0
          else chunk
        match in_cksum (build_segment_header sq s.acknum false false false
            s.client_window datalen 0 ++ padded) with
        | .error e => .error e
        | .ok ck =>
          let seg := build_segment_header sq s.acknum false false false
            s.client_window datalen ck ++ padded
          clientSendLoop t
            {s with
              segments_in_transit := s.segments_in_transit ++ [(t, sq, seg)],
              seqnum := some (sq + 1)}
            rest (sent ++ [seg])
    else .ok (s, buf, sent)
termination_by buf.length

/-- `BTCPClientSocket.lossy_layer_tick` (client_socket.py lines 130-192),
with the current time `t` and the retransmission timeout `TO` passed in
(`TIMEOUT` lives in the missing `constants.py`): first retransmit every
in-flight entry older than the timeout, refreshing its timestamp, then run
the sending loop. -/
def clientTick (TO t : Nat) (s : ClientState) (buf : List (List Nat)) :
    Except PyErr (ClientState × List (List Nat) × List (List Nat)) :=
  let retrans := s.segments_in_transit.map
    (fun e => if e.1 + TO < t then (t, e.2.1, e.2.2) else e)
  let resent := (s.segments_in_transit.filter
    (fun e => decide (e.1 + TO < t))).map (fun e => e.2.2)
  clientSendLoop t {s with segments_in_transit := retrans} buf resent

/-- `BTCPClientSocket.connect` (client_socket.py lines 221-295), as a
function of the freshly generated initial sequence number `S` and of the
outcome `synack` of the bounded retry wait (true exactly when the network
thread set `synack_recv` within the retry budget; the timing loop itself
only re-sends the same SYN segment and is abstracted by this flag). Neither
branch of the Python code executes a `return` statement, so `connect`
returns Python `None` on the success path and on the failure path alike;
the returned value is modelled as `Option Bool`, with `none` for `None`. -/
def connect (S : Nat) (synack : Bool) (s : ClientState) :
    ClientState × Option Bool :=
  let s1 := {s with
    seqnum := some S,
    state := .SYN_SENT,
    synack_recv := synack}
  if synack then
    ({s1 with
      acknum := s1.acknum + 1,
      seqnum := some (S + 1),
      state := .ESTABLISHED}, none)
  else
    ({s1 with state := .CLOSED}, none)

/-- The mutable attributes of `BTCPServerSocket` (server_socket.py
`__init__`, lines 39-64). `seqnum` is `None` until `accept` assigns it;
`fin_retries`, `fin_timeout` and `ack_timeout` start as `None`. The bounded
receive queue `_recvbuf` is the `recvbuf` list (capacity 1000). -/
structure ServerState where
  state : BTCPStates
  seqnum : Option Nat
  acknum : Nat
  recvbuf : List (List Nat)
  fin_retries : Option Nat
  fin_timeout : Option Nat
  ack_timeout : Option Nat
  window : Nat
deriving DecidableEq, Repr

/-- `queue.Queue(maxsize=1000).put_nowait` under `except queue.Full: pass`
(server_socket.py lines 167-173): append, silently dropping the chunk when
the queue is full. -/
def pushBounded (q : List (List Nat)) (chunk : List Nat) : List (List Nat) :=
  if q.length < 1000 then q ++ [chunk] else q

/-- `BTCPServerSocket.generate_ack` (server_socket.py lines 214-220). The
first pass builds the header with the DEFAULT window `0x01` and computes the
checksum over it; the re-encode passes `window=self.window`. A `None`
`seqnum` would make `struct.pack` raise. -/
def generate_ack (s : ServerState) : Except PyErr (List Nat) :=
  match s.seqnum with
  | none => .error .structError
  | some sq =>
    match in_cksum (build_segment_header sq s.acknum false true false 1 0 0) with
    | .error e => .error e
    | .ok ck =>
      .ok (build_segment_header sq s.acknum false true false s.window 0 ck ++
        List.replicate 1008 0)

/-- The segment `generate_ack` produces, as a total function of the fields it
reads; `generate_ack` always succeeds once `seqnum` is assigned (the header
handed to `in_cksum` is 10 bytes). -/
def generate_ack_of (sq acknum window : Nat) : List Nat :=
  build_segment_header sq acknum false true false window 0
    (header_cksum sq acknum false true false 1 0) ++ List.replicate 1008 0

theorem generate_ack_eq (s : ServerState) (sq : Nat) (h : s.seqnum = some sq) :
    generate_ack s = .ok (generate_ack_of sq s.acknum s.window) := by
  simp [generate_ack, h, generate_ack_of, in_cksum_build]

/-- `BTCPServerSocket.lossy_layer_segment_received` (server_socket.py lines
85-176), with the current time `t` passed in for the teardown deadline.
Returns the new state and the segments handed to the lossy layer. The
server's checksum verification (line 107) re-builds the header and appends
`chunk = segment[HEADER_SIZE:HEADER_SIZE + datalen]`. -/
def serverSegmentReceived (t : Nat) (s : ServerState) (segment : List Nat) :
    Except PyErr (ServerState × List (List Nat)) :=
  if s.state = .CLOSED then .ok (s, [])
  else
    match unpack_segment_header (segment.take HEADER_SIZE) with
    | .error e => .error e
    | .ok (seqnum, acknum, syn_set, ack_set, fin_set, _window, datalen, checksum) =>
      let chunk := (segment.drop HEADER_SIZE).take datalen
      match in_cksum (build_segment_header seqnum acknum syn_set ack_set
          fin_set _window datalen 0 ++ chunk) with
      | .error e => .error e
      | .ok check =>
        if check ≠ checksum then .ok (s, [])
        else
          match serverFlagClass syn_set ack_set fin_set with
          | (_synackC, synC, ackC, finC, noflagC) =>
            if s.state ≠ .ESTABLISHED then
              if s.state = .ACCEPTING ∧ synC then
                .ok ({s with acknum := seqnum + 1, state := .SYN_RCVD}, [])
              else if s.state = .SYN_RCVD ∧ ackC then
                .ok ({s with state := .ESTABLISHED}, [])
              else if s.state = .CLOSING ∧ ackC then
                .ok ({s with state := .CLOSED}, [])
              else if s.state = .CLOSING ∧ finC then
                match s.fin_retries with
                | none => .error .typeError
                | some fr =>
                  if fr ≥ 10 then .ok ({s with state := .CLOSED}, [])
                  else
                    match s.seqnum with
                    | none => .error .structError
                    | some sq =>
                      match in_cksum (build_segment_header sq s.acknum false
                          true true 1 0 0) with
                      | .error e => .error e
                      | .ok ck =>
                        .ok ({s with fin_retries := some (fr + 1)},
                          [build_segment_header sq s.acknum false true true 1
                            0 ck ++ List.replicate 1008 0])
              else .ok (s, [])
            else
              if finC then
                match s.seqnum with
                | none => .error .structError
                | some sq =>
                  match in_cksum (build_segment_header sq s.acknum false true
                      true 1 0 0) with
                  | .error e => .error e
                  | .ok ck =>
                    .ok ({s with
                      state := .CLOSING,
                      fin_retries := some 0,
                      fin_timeout := some (t + 30)},
                      [build_segment_header sq s.acknum false true true 1 0
                        ck ++ List.replicate 1008 0])
              else if noflagC then
                let s1 := {s with ack_timeout := none}
                if seqnum = s1.acknum + 1 then
                  match generate_ack s1 with
                  | .error e => .error e
                  | .ok ackseg =>
                    .ok ({s1 with
                      acknum := s1.acknum + 1,
                      recvbuf := pushBounded s1.recvbuf chunk}, [ackseg])
                else
                  match generate_ack s1 with
                  | .error e => .error e
                  | .ok ackseg => .ok (s1, [ackseg])
              else
                .ok (s, [])

/-- A server endpoint in `ESTABLISHED` (after a completed handshake with
`localSeq = 3` and no data received yet), used as a concrete test state. -/
def exServerEst : ServerState := ⟨.ESTABLISHED, some 3, 0, [], none, none, none, 1⟩

/-- A client endpoint in `SYN_SENT` with initial sequence number 10, used as
a concrete test state. -/
def exClientSyn : ClientState :=
  ⟨.SYN_SENT, some 10, 0, 100, 100, 0, false, false, []⟩

/-- The `acknum` field an on-wire segment carries. -/
def seg_acknum (seg : List Nat) : Nat :=
  match unpack_segment_header (seg.take HEADER_SIZE) with
  | .ok f => f.2.1
  | .error _ => 0

/-- A checksum-valid in-order data segment (`seqnum = 1`, 2 payload bytes
`05 06`) for a server whose `acknum` is 0. -/
def exServerData : List Nat :=
  build_segment_header 1 0 false false false 1 2 64246 ++
    (5 :: 6 :: List.replicate 1006 0)

/-- C1: the code raises `IndexError` on the very case the claim covers.
With an empty in-flight list (every entry — vacuously — has `seqnum < N`),
a checksum-valid ACK with `acknum = 1 > last_rec_ack = 0` makes the trim
loop of `lossy_layer_segment_received` read `segments_in_transit[0]` out of
range instead of removing the (zero) covered entries. -/
theorem client_ack_trim_crash :
    clientSegmentReceived
        ⟨.ESTABLISHED, some 5, 0, 100, 100, 0, true, false, []⟩
        (build_segment_header 0 1 false true false 50 0 64973 ++
          List.replicate 1008 0) = .error .indexError := rfl

/-- C6: while in `SYN_SENT` with `seqnum = some S`, a checksum-valid inbound
segment records the SYN+ACK (sets `synack_recv`, stores the peer seqnum and
window) exactly when both SYN and ACK are set and its `acknum` equals
`S + 1`; every other checksum-valid segment leaves the whole state
unchanged (in particular the state stays `SYN_SENT`). -/
theorem synsent_handshake_determinism (s : ClientState) (S seq ak : Nat)
    (sy ac fi : Bool) (w dl : Nat) (pay : List Nat)
    (hs : s.state = .SYN_SENT) (hq : s.seqnum = some S) :
    clientSegmentReceived s
        (build_segment_header seq ak sy ac fi w dl
          (header_cksum seq ak sy ac fi w dl) ++ pay) =
      .ok (if sy = true ∧ ac = true ∧ ak = S + 1
        then {s with
          acknum := seq,
          server_window := w,
          synack_recv := true}
        else s) := by
  have hcl : s.state ≠ BTCPStates.CLOSED := by simp [hs]
  simp only [clientSegmentReceived, build_take_append, unpack_build,
    in_cksum_build, if_neg hcl, hs, hq]
  simp only [ne_eq, not_true_eq_false, if_false, reduceIte]
  cases sy <;> cases ac
  · simp
  · simp
  · simp
  · by_cases h : S + 1 = ak
    · simp [h]
    · have h2 : ¬(ak = S + 1) := fun hh => h hh.symm
      simp [h, h2]

/-- C6 witness: in `SYN_SENT` with `S = 10`, a SYN+ACK carrying
`acknum = 11` is accepted and recorded. -/
theorem synsent_handshake_determinism_witness :
    clientSegmentReceived exClientSyn
        (build_segment_header 7 11 true true false 42 0
          (header_cksum 7 11 true true false 42 0) ++ []) =
      .ok {exClientSyn with
        acknum := 7,
        server_window := 42,
        synack_recv := true} := by
  have h := synsent_handshake_determinism exClientSyn 10 7 11 true true false
    42 0 [] rfl rfl
  simpa using h

/-- C10: the client's `lossy_layer_tick` has no guard for `CLOSED`: whenever
`seqnum` is still `None` (as after construction, before `connect` assigns
it) the evaluation of the window condition
`self.seqnum - self.last_rec_ack < self.server_window` raises `TypeError`
instead of ignoring the tick. -/
theorem client_tick_raises (TO t : Nat) (s : ClientState)
    (buf : List (List Nat)) (_hst : s.state = .CLOSED)
    (hq : s.seqnum = none) :
    clientTick TO t s buf = .error .typeError := by
  unfold clientTick clientSendLoop
  simp [hq]

/-- C10 witness: a tick on the freshly constructed client state raises. -/
theorem client_tick_raises_witness :
    clientTick 5 0 initClient [] = .error .typeError :=
  client_tick_raises 5 0 initClient [] rfl rfl

/-- C8 counterexample: `connect` has no `return` statement on either path,
so the value returned after retry exhaustion (Python `None`) is literally
the same value returned after reaching `ESTABLISHED` — not a failure
indication distinguishable from success. The state does transition to
`CLOSED` on exhaustion. -/
theorem connect_return_indistinguishable_cex :
    (connect 5 false initClient).2 = (connect 5 true initClient).2 ∧
      (connect 5 false initClient).1.state = .CLOSED ∧
      (connect 5 true initClient).1.state = .ESTABLISHED := ⟨rfl, rfl, rfl⟩

/-- C8 (amended): on retry exhaustion `connect` transitions the state to
`CLOSED`, and on success to `ESTABLISHED`, but it returns Python `None` in
both cases; success or failure is signalled only through the state field,
not through the returned value. -/
theorem connect_returns_none (S : Nat) (synack : Bool) (s : ClientState) :
    (connect S synack s).2 = none ∧
      (connect S synack s).1.state =
        (if synack then BTCPStates.ESTABLISHED else BTCPStates.CLOSED) := by
  cases synack <;> simp [connect]

/-- C2 counterexample: the server at `acknum = 0` accepts the in-order data
segment with `seqnum = 1` and advances `acknum` to 1, but the pure ACK it
sends carries `acknum` field 0 — `generate_ack()` is called *before*
`self.acknum += 1`, so the ACK reflects the previous position, not the new
(advanced) `acknum` the claim states. -/
theorem server_data_ack_old_acknum_cex :
    (serverSegmentReceived 0 exServerEst exServerData).map
      (fun r => (r.1.acknum, r.2.map seg_acknum)) = .ok (1, [0]) := rfl

/-- C2 (amended): in `ESTABLISHED`, a checksum-valid no-flags segment is
accepted exactly when `seqnum = acknum + 1`; on acceptance the server sends
the pure ACK built from the *pre-advance* `acknum` (not the new one),
advances `acknum` by 1, and enqueues the first `length` payload bytes into
the bounded receive backlog (silently dropped when full); on any other
seqnum it re-sends the same ACK for the last accepted position and changes
neither `acknum` nor the backlog (only the keepalive `ack_timeout` is
reset, in both cases). -/
theorem server_data_path (t : Nat) (s : ServerState) (sqv seq ak w dl ck : Nat)
    (pay : List Nat) (hstate : s.state = .ESTABLISHED)
    (hsq : s.seqnum = some sqv)
    (hvalid : in_cksum (build_segment_header seq ak false false false w dl 0
      ++ pay.take dl) = .ok ck) :
    serverSegmentReceived t s
        (build_segment_header seq ak false false false w dl ck ++ pay) =
      .ok (if seq = s.acknum + 1
        then ({s with
          ack_timeout := none,
          acknum := s.acknum + 1,
          recvbuf := pushBounded s.recvbuf (pay.take dl)},
          [generate_ack_of sqv s.acknum s.window])
        else ({s with ack_timeout := none},
          [generate_ack_of sqv s.acknum s.window])) := by
  have hcl : s.state ≠ BTCPStates.CLOSED := by simp [hstate]
  simp only [serverSegmentReceived, build_take_append, build_drop_append,
    unpack_build, if_neg hcl, hvalid, hstate, serverFlagClass]
  simp only [ne_eq, not_true_eq_false, if_false, reduceIte, Bool.and_self,
    Bool.and_false, Bool.false_and, Bool.not_false, Bool.or_self,
    Bool.or_false, Bool.false_or, Bool.and_true, Bool.true_and]
  simp only [generate_ack, hsq, in_cksum_build, generate_ack_of]
  by_cases h : seq = s.acknum + 1 <;> simp [h]

/-- C2 witness: the amended theorem at the concrete in-order segment
`exServerData`, showing acceptance, the old-acknum ACK, the advance, and
the enqueued chunk. -/
theorem server_data_path_witness :
    serverSegmentReceived 0 exServerEst exServerData =
      .ok ({exServerEst with
        ack_timeout := none,
        acknum := 1,
        recvbuf := [[5, 6]]}, [generate_ack_of 3 0 1]) := by
  have h := server_data_path 0 exServerEst 3 1 0 1 2 64246
    (5 :: 6 :: List.replicate 1006 0) rfl rfl rfl
  simpa [exServerData] using h

/-- C5 counterexample: the server's checksum recomputation feeds
`header + segment[10:10+length]` to `in_cksum`; an inbound segment with the
odd `length` field 1 makes that input 11 bytes long, so
`struct.iter_unpack("!H", ...)` raises `struct.error` — the segment (whose
stored checksum 0 is wrong for its fields under the verification contract)
is not silently discarded: an error escapes the handler. -/
theorem server_corruption_raises_cex :
    serverSegmentReceived 0 exServerEst
        (build_segment_header 9 9 false false false 0 1 0 ++ [7]) =
      .error .structError := rfl

/-- C5 (amended): an inbound segment whose recomputed checksum differs from
its stored checksum field is discarded silently with no state change and
nothing sent — by the client for every combination of header field values
(its recomputation covers the 10 header bytes only), and by the server for
every combination whose `length` field yields an even checksum input; for
an odd `length` below the remaining payload size the server instead raises
`struct.error` from the recomputation (see the counterexample). -/
theorem corruption_silent_discard (t : Nat) (cs : ClientState)
    (ss : ServerState) (seq ak : Nat) (sy ac fi : Bool) (w dl ck : Nat)
    (pay : List Nat) (hcs : cs.state ≠ .CLOSED) (hss : ss.state ≠ .CLOSED) :
    (header_cksum seq ak sy ac fi w dl ≠ ck →
      clientSegmentReceived cs
        (build_segment_header seq ak sy ac fi w dl ck ++ pay) = .ok cs) ∧
    (∀ c, in_cksum (build_segment_header seq ak sy ac fi w dl 0 ++
        pay.take dl) = .ok c → c ≠ ck →
      serverSegmentReceived t ss
        (build_segment_header seq ak sy ac fi w dl ck ++ pay) =
          .ok (ss, [])) := by
  constructor
  · intro hne
    simp only [clientSegmentReceived, build_take_append, unpack_build,
      in_cksum_build, if_neg hcs]
    simp [hne]
  · intro c hc hne
    simp only [serverSegmentReceived, build_take_append, build_drop_append,
      unpack_build, if_neg hss, hc]
    simp [hne]

/-- C5 witness: a segment whose stored checksum 0 mismatches the recomputed
value 65533 is dropped without any state change by both endpoints. -/
theorem corruption_silent_discard_witness :
    clientSegmentReceived exClientSyn
        (build_segment_header 1 1 false false false 1 0 0 ++ []) =
      .ok exClientSyn ∧
    serverSegmentReceived 0 exServerEst
        (build_segment_header 1 1 false false false 1 0 0 ++ []) =
      .ok (exServerEst, []) := by
  have h := corruption_silent_discard 0 exClientSyn exServerEst 1 1 false
    false false 1 0 0 [] (by decide) (by decide)
  exact ⟨h.1 (by decide), h.2 65533 rfl (by decide)⟩

theorem cksumStep_zero {c : Nat} (h : c ≤ 65536) : cksumStep c 0 = c := by
  unfold cksumStep; split <;> omega

/-- The header checksum as the folded sum of the five header words. -/
theorem header_cksum_eq (sq ak : Nat) (sy ac fi : Bool) (w dl : Nat) :
    header_cksum sq ak sy ac fi w dl =
      65536 - cksumFold [sq, ak,
        ((if sy then 4 else 0) + (if ac then 2 else 0) +
          (if fi then 1 else 0)) * 256 + w, dl, 0] := by
  have h := in_cksum_eq_some (build_segment_header sq ak sy ac fi w dl 0)
    _ (by simp [build_segment_header]) (toWords_build sq ak sy ac fi w dl 0)
  simp [header_cksum, h]

theorem cksumFold_five (a b x : Nat) (ha : a ≤ 65535) (hb : b ≤ 65535)
    (hx : x ≤ 65535) :
    cksumFold [a, b, x, 0, 0] =
      cksumStep (cksumStep (cksumStep 0 a) b) x := by
  have hle1 : cksumStep 0 a ≤ 65536 := cksumStep_le (by omega) ha
  have hle2 : cksumStep (cksumStep 0 a) b ≤ 65536 := cksumStep_le hle1 hb
  have hle3 : cksumStep (cksumStep (cksumStep 0 a) b) x ≤ 65536 :=
    cksumStep_le hle2 hx
  simp only [cksumFold, List.foldl_cons, List.foldl_nil]
  rw [cksumStep_zero hle3, cksumStep_zero hle3]

/-- The receiver-side verification the client applies to every inbound
segment (client_socket.py lines 95-102): unpack the first 10 bytes,
recompute `in_cksum` over the re-built header with checksum 0, and compare
with the received checksum field. -/
def client_verifies (segment : List Nat) : Bool :=
  match unpack_segment_header (segment.take HEADER_SIZE) with
  | .error _ => false
  | .ok (seqnum, acknum, syn_set, ack_set, fin_set, window, datalen, checksum) =>
    match in_cksum (build_segment_header seqnum acknum syn_set ack_set
        fin_set window datalen 0) with
    | .error _ => false
    | .ok check => decide (check = checksum)

/-- C4 counterexample: with the advertised window 2, the ACK produced by
`generate_ack` does not self-validate — its checksum was computed over a
header carrying the default window `0x01`, but the segment on the wire
carries window 2, so the receiver's recomputation differs by one. -/
theorem generate_ack_checksum_cex :
    client_verifies (generate_ack_of 0 0 2) = false := rfl

/-- C4 (amended): the server's ACK segments produced by `generate_ack`
self-validate under the receiver's verification contract exactly when the
current advertised window equals the default `0x01` used by the first pass
of the build; for every other window value the stored checksum covers
window 1 while the wire segment carries `self.window`, and verification
fails. (A two-pass build whose two passes use identical fields, as in the
client's data-segment and handshake paths, does self-validate; the claim
fails only because `generate_ack`'s two passes disagree on the window.) -/
theorem generate_ack_self_validation (sq ak w : Nat) (h1 : sq < 65536)
    (h2 : ak < 65536) (h3 : w < 256) :
    (client_verifies (generate_ack_of sq ak w) = true) ↔ w = 1 := by
  have hc0le : cksumStep (cksumStep 0 sq) ak ≤ 65536 :=
    cksumStep_le (cksumStep_le (by omega) (by omega)) (by omega)
  have h513 : cksumStep (cksumStep (cksumStep 0 sq) ak) 513 ≤ 65536 :=
    cksumStep_le hc0le (by omega)
  have h512w : cksumStep (cksumStep (cksumStep 0 sq) ak) (512 + w) ≤ 65536 :=
    cksumStep_le hc0le (by omega)
  have e1 : header_cksum sq ak false true false 1 0 =
      65536 - cksumStep (cksumStep (cksumStep 0 sq) ak) 513 := by
    rw [header_cksum_eq]
    have hw : ((if false then 4 else 0) + (if true then 2 else 0) +
        (if false then 1 else 0)) * 256 + 1 = 513 := by norm_num
    rw [hw, cksumFold_five sq ak 513 (by omega) (by omega) (by omega)]
  have e2 : header_cksum sq ak false true false w 0 =
      65536 - cksumStep (cksumStep (cksumStep 0 sq) ak) (512 + w) := by
    rw [header_cksum_eq]
    have hw : ((if false then 4 else 0) + (if true then 2 else 0) +
        (if false then 1 else 0)) * 256 + w = 512 + w := by norm_num
    rw [hw, cksumFold_five sq ak (512 + w) (by omega) (by omega) (by omega)]
  have hv : client_verifies (generate_ack_of sq ak w) =
      decide (header_cksum sq ak false true false w 0 =
        header_cksum sq ak false true false 1 0) := by
    simp only [client_verifies, generate_ack_of, build_take_append,
      unpack_build, in_cksum_build]
  rw [hv, decide_eq_true_eq, e2, e1]
  have hkey : cksumStep (cksumStep (cksumStep 0 sq) ak) (512 + w) =
      cksumStep (cksumStep (cksumStep 0 sq) ak) 513 ↔ w = 1 := by
    generalize cksumStep (cksumStep 0 sq) ak = c at hc0le
    unfold cksumStep
    split_ifs <;> omega
  rw [show (65536 - cksumStep (cksumStep (cksumStep 0 sq) ak) (512 + w) =
      65536 - cksumStep (cksumStep (cksumStep 0 sq) ak) 513) ↔
      (cksumStep (cksumStep (cksumStep 0 sq) ak) (512 + w) =
        cksumStep (cksumStep (cksumStep 0 sq) ak) 513) from by omega, hkey]

/-- C4 witness: with the advertised window at the default 1, the produced
ACK does self-validate. -/
theorem generate_ack_self_validation_witness :
    client_verifies (generate_ack_of 3 7 1) = true :=
  (generate_ack_self_validation 3 7 1 (by decide) (by decide)
    (by decide)).mpr rfl

end BTCP
